import Mathlib

set_option maxHeartbeats 1000000

/-
Verification of the web-scraping batch fetcher: the retry/backoff fetch
unit, identity rotation, the gather-based and shared-list orchestrators,
and the JSON result-serving endpoint.

The network and the HTML parser are modelled as environments: a function
from the attempt index to the outcome the runtime delivers for that
attempt, and a function from page content to the outcome of parsing it.
Machine effects (sleeps, attempt indices) are recorded in an explicit
trace. Exceptions that propagate out of a coroutine are an error value
of an Except type; exception classes are modelled at the granularity the
handlers distinguish: aiohttp.ClientError, any other class deriving
Exception, and classes deriving only BaseException (KeyboardInterrupt,
SystemExit, asyncio.CancelledError), which except Exception does not
catch.
-/

namespace Scrape

/-- Outcome the runtime delivers for one attempt of session.get plus body
read: a successful body, an aiohttp.ClientError (raised by the request or
by raise_for_status), any other exception deriving Exception, or an
exception deriving only BaseException, which neither handler catches. -/
inductive AttemptResult where
  | ok (body : String)
  | clientError (msg : String)
  | unexpectedError (msg : String)
  | baseException (msg : String)
deriving DecidableEq

/-- Observable behaviour of one call to fetch_page: the value returned to
the caller (or the exception that propagated, as Except.error), the list
of attempt indices at which a request was issued, and the list of delays
passed to asyncio.sleep, in order. -/
structure FetchTrace where
  result : Except String (Option String)
  attempts : List Nat
  sleeps : List Nat

/-- MAX_RETRIES = 3 from part_000. -/
def MAX_RETRIES : Nat := 3

/-- TIMEOUT = 10 seconds from part_000. -/
def TIMEOUT : Nat := 10

/-- USER_AGENTS pool from part_000 lines 17-28. -/
def USER_AGENTS : List String := [
  "Mozilla/5.0 (Windows NT 10.0; Win64; x64) AppleWebKit/537.36 (KHTML, like Gecko) Chrome/91.0.4472.124 Safari/537.36",
  "Mozilla/5.0 (Macintosh; Intel Mac OS X 10_15_7) AppleWebKit/537.36 (KHTML, like Gecko) Chrome/91.0.4472.124 Safari/537.36",
  "Mozilla/5.0 (X11; Linux x86_64) AppleWebKit/537.36 (KHTML, like Gecko) Chrome/91.0.4472.124 Safari/537.36",
  "Mozilla/5.0 (Windows NT 10.0; Win64; x64; rv:89.0) Gecko/20100101 Firefox/89.0",
  "Mozilla/5.0 (Macintosh; Intel Mac OS X 10.15; rv:89.0) Gecko/20100101 Firefox/89.0",
  "Mozilla/5.0 (X11; Linux i686; rv:89.0) Gecko/20100101 Firefox/89.0",
  "Mozilla/5.0 (Macintosh; Intel Mac OS X 10_15_7) AppleWebKit/605.1.15 (KHTML, like Gecko) Version/14.1.1 Safari/605.1.15",
  "Mozilla/5.0 (iPhone; CPU iPhone OS 14_6 like Mac OS X) AppleWebKit/605.1.15 (KHTML, like Gecko) Version/14.0.3 Mobile/15E148 Safari/604.1",
  "Mozilla/5.0 (iPad; CPU OS 14_6 like Mac OS X) AppleWebKit/605.1.15 (KHTML, like Gecko) Version/14.0.3 Mobile/15E148 Safari/604.1",
  "Mozilla/5.0 (Linux; Android 11; SM-G998B Build/R16KP.210331.001; wv) AppleWebKit/537.36 (KHTML, like Gecko) Version/4.0 Chrome/91.0.4472.101 Mobile Safari/537.36"]

/-- part_000 line 42: USER_AGENTS[retry_count % len(USER_AGENTS)]. The
pool is a non-empty literal, so the index is always in bounds. -/
def identityFor (k : Nat) : String :=
  USER_AGENTS.get ⟨k % USER_AGENTS.length, Nat.mod_lt k (by decide)⟩

/-- fetch_page from part_000 (lines 30-60 and its duplicates at 155-182,
235-262): issue the request for attempt retry_count; on success return
the body; on aiohttp.ClientError sleep 2 ^ retry_count and recurse with
retry_count + 1 while retry_count < max_retries, else give up with None;
on any other Exception return None at once; an exception deriving only
BaseException is caught by neither handler and propagates. max_retries
is the module constant MAX_RETRIES in part_000 and a parameter of
fetch_with_browser in example.py; it is an explicit argument here. -/
def fetch_page (env : Nat → AttemptResult) (max_retries : Nat) (retry_count : Nat) : FetchTrace :=
  match env retry_count with
  | .ok body => { result := .ok (some body), attempts := [retry_count], sleeps := [] }
  | .clientError _ =>
    if h : retry_count < max_retries then
      let rest := fetch_page env max_retries (retry_count + 1)
      { result := rest.result, attempts := retry_count :: rest.attempts,
        sleeps := 2 ^ retry_count :: rest.sleeps }
    else
      { result := .ok none, attempts := [retry_count], sleeps := [] }
  | .unexpectedError _ => { result := .ok none, attempts := [retry_count], sleeps := [] }
  | .baseException msg => { result := .error msg, attempts := [retry_count], sleeps := [] }
termination_by max_retries - retry_count
decreasing_by omega

theorem fetch_page_ok (env : Nat → AttemptResult) (m k : Nat) (body : String)
    (h : env k = .ok body) :
    fetch_page env m k = ⟨.ok (some body), [k], []⟩ := by
  rw [fetch_page, h]

theorem fetch_page_retry (env : Nat → AttemptResult) (m k : Nat) (s : String)
    (h : env k = .clientError s) (hlt : k < m) :
    fetch_page env m k =
      ⟨(fetch_page env m (k + 1)).result, k :: (fetch_page env m (k + 1)).attempts,
        2 ^ k :: (fetch_page env m (k + 1)).sleeps⟩ := by
  rw [fetch_page, h]
  simp [hlt]

theorem fetch_page_exhausted (env : Nat → AttemptResult) (m k : Nat) (s : String)
    (h : env k = .clientError s) (hge : ¬ k < m) :
    fetch_page env m k = ⟨.ok none, [k], []⟩ := by
  rw [fetch_page, h]
  simp [hge]

theorem fetch_page_unexpected (env : Nat → AttemptResult) (m k : Nat) (s : String)
    (h : env k = .unexpectedError s) :
    fetch_page env m k = ⟨.ok none, [k], []⟩ := by
  rw [fetch_page, h]

theorem fetch_page_base (env : Nat → AttemptResult) (m k : Nat) (s : String)
    (h : env k = .baseException s) :
    fetch_page env m k = ⟨.error s, [k], []⟩ := by
  rw [fetch_page, h]

/-- Full trace of fetch_page when every attempt raises ClientError:
attempts at indices k, k+1, ..., m and a sleep of 2 ^ j after each failed
attempt j < m, ending in the exhausted None result. -/
theorem fetch_page_allfail (env : Nat → AttemptResult) (m : Nat)
    (h : ∀ j, ∃ s, env j = AttemptResult.clientError s) :
    ∀ (fuel k : Nat), m - k = fuel → k ≤ m →
      fetch_page env m k =
        ⟨Except.ok none, List.range' k (m - k + 1), (List.range' k (m - k)).map (fun j => 2 ^ j)⟩ := by
  intro fuel
  induction fuel with
  | zero =>
    intro k hf hk
    obtain ⟨s, hs⟩ := h k
    rw [fetch_page_exhausted env m k s hs (by omega)]
    have h0 : m - k = 0 := hf
    rw [h0]
    simp [List.range'_succ]
  | succ n ih =>
    intro k hf hk
    obtain ⟨s, hs⟩ := h k
    rw [fetch_page_retry env m k s hs (by omega), ih (k + 1) (by omega) (by omega)]
    have ha : List.range' k (m - k + 1) = k :: List.range' (k + 1) (m - (k + 1) + 1) := by
      rw [show m - k + 1 = m - (k + 1) + 1 + 1 from by omega, List.range'_succ]
    have hb : (List.range' k (m - k)).map (fun j => 2 ^ j)
        = 2 ^ k :: (List.range' (k + 1) (m - (k + 1))).map (fun j => 2 ^ j) := by
      rw [show m - k = m - (k + 1) + 1 from by omega, List.range'_succ, List.map_cons]
    rw [ha, hb]

/-- The attempts list always has length at most (max_retries - retry_count) + 1. -/
theorem fetch_page_attempts_le (env : Nat → AttemptResult) (m : Nat) :
    ∀ (fuel k : Nat), m - k = fuel → (fetch_page env m k).attempts.length ≤ m - k + 1 := by
  intro fuel
  induction fuel with
  | zero =>
    intro k hf
    match he : env k with
    | .ok body => rw [fetch_page_ok env m k body he]; simp
    | .clientError s => rw [fetch_page_exhausted env m k s he (by omega)]; simp
    | .unexpectedError s => rw [fetch_page_unexpected env m k s he]; simp
    | .baseException s => rw [fetch_page_base env m k s he]; simp
  | succ n ih =>
    intro k hf
    match he : env k with
    | .ok body => rw [fetch_page_ok env m k body he]; simp
    | .clientError s =>
      rw [fetch_page_retry env m k s he (by omega)]
      have hrec := ih (k + 1) (by omega)
      simp only [List.length_cons]
      omega
    | .unexpectedError s => rw [fetch_page_unexpected env m k s he]; simp
    | .baseException s => rw [fetch_page_base env m k s he]; simp

/-- Every delay recorded from attempt index k onward is at least 2 ^ k. -/
theorem fetch_page_sleeps_ge (env : Nat → AttemptResult) (m : Nat) :
    ∀ (fuel k : Nat), m - k = fuel → ∀ x ∈ (fetch_page env m k).sleeps, 2 ^ k ≤ x := by
  intro fuel
  induction fuel with
  | zero =>
    intro k hf x hx
    match he : env k with
    | .ok body => rw [fetch_page_ok env m k body he] at hx; simp at hx
    | .clientError s => rw [fetch_page_exhausted env m k s he (by omega)] at hx; simp at hx
    | .unexpectedError s => rw [fetch_page_unexpected env m k s he] at hx; simp at hx
    | .baseException s => rw [fetch_page_base env m k s he] at hx; simp at hx
  | succ n ih =>
    intro k hf x hx
    match he : env k with
    | .ok body => rw [fetch_page_ok env m k body he] at hx; simp at hx
    | .clientError s =>
      rw [fetch_page_retry env m k s he (by omega)] at hx
      simp only [List.mem_cons] at hx
      rcases hx with rfl | hx
      · exact Nat.le_refl _
      · exact le_trans (Nat.pow_le_pow_right (by omega) (by omega))
          (ih (k + 1) (by omega) x hx)
    | .unexpectedError s => rw [fetch_page_unexpected env m k s he] at hx; simp at hx
    | .baseException s => rw [fetch_page_base env m k s he] at hx; simp at hx

/-- The recorded delays are monotonically non-decreasing. -/
theorem fetch_page_sleeps_chain (env : Nat → AttemptResult) (m : Nat) :
    ∀ (fuel k : Nat), m - k = fuel → List.Chain' (fun a b => a ≤ b) (fetch_page env m k).sleeps := by
  intro fuel
  induction fuel with
  | zero =>
    intro k hf
    match he : env k with
    | .ok body => rw [fetch_page_ok env m k body he]; simp
    | .clientError s => rw [fetch_page_exhausted env m k s he (by omega)]; simp
    | .unexpectedError s => rw [fetch_page_unexpected env m k s he]; simp
    | .baseException s => rw [fetch_page_base env m k s he]; simp
  | succ n ih =>
    intro k hf
    match he : env k with
    | .ok body => rw [fetch_page_ok env m k body he]; simp
    | .clientError s =>
      rw [fetch_page_retry env m k s he (by omega)]
      refine List.chain'_cons'.mpr ⟨?_, ih (k + 1) (by omega)⟩
      intro y hy
      exact le_trans (Nat.pow_le_pow_right (by omega) (by omega))
        (fetch_page_sleeps_ge env m (m - (k + 1)) (k + 1) rfl y (List.mem_of_mem_head? hy))
    | .unexpectedError s => rw [fetch_page_unexpected env m k s he]; simp
    | .baseException s => rw [fetch_page_base env m k s he]; simp

/-- If no attempt raises a BaseException-only class, fetch_page returns a
value to its caller: Except.ok of the body or of None. -/
theorem fetch_page_result_ok (env : Nat → AttemptResult) (m : Nat)
    (h : ∀ j s, env j ≠ AttemptResult.baseException s) :
    ∀ (fuel k : Nat), m - k = fuel → ∃ o, (fetch_page env m k).result = Except.ok o := by
  intro fuel
  induction fuel with
  | zero =>
    intro k hf
    match he : env k with
    | .ok body => exact ⟨some body, by rw [fetch_page_ok env m k body he]⟩
    | .clientError s => exact ⟨none, by rw [fetch_page_exhausted env m k s he (by omega)]⟩
    | .unexpectedError s => exact ⟨none, by rw [fetch_page_unexpected env m k s he]⟩
    | .baseException s => exact absurd he (h k s)
  | succ n ih =>
    intro k hf
    match he : env k with
    | .ok body => exact ⟨some body, by rw [fetch_page_ok env m k body he]⟩
    | .clientError s =>
      obtain ⟨o, ho⟩ := ih (k + 1) (by omega)
      exact ⟨o, by rw [fetch_page_retry env m k s he (by omega)]; exact ho⟩
    | .unexpectedError s => exact ⟨none, by rw [fetch_page_unexpected env m k s he]⟩
    | .baseException s => exact absurd he (h k s)

/-- Claim C2: when every attempt fails with a retriable ClientError,
fetch_page performs exactly max_retries + 1 attempts and returns the
exhausted-failure value None; for any environment the total number of
attempts never exceeds max_retries + 1. The retry recursion always
terminates: fetch_page is a total function. -/
theorem retriable_exhaustion (env env2 : Nat → AttemptResult) (m : Nat)
    (h : ∀ j, ∃ s, env j = AttemptResult.clientError s) :
    (fetch_page env m 0).result = Except.ok none
    ∧ (fetch_page env m 0).attempts.length = m + 1
    ∧ (fetch_page env2 m 0).attempts.length ≤ m + 1 := by
  have htr := fetch_page_allfail env m h (m - 0) 0 rfl (Nat.zero_le m)
  have hle := fetch_page_attempts_le env2 m (m - 0) 0 rfl
  rw [htr]
  refine ⟨rfl, ?_, ?_⟩
  · simp
  · simpa using hle

/-- Witness for C2: the always-ClientError environment with the
MAX_RETRIES value 3 of the source, and a succeeding environment for the
bound. -/
theorem retriable_exhaustion_witness :
    (∀ j, ∃ s, (fun _ : Nat => AttemptResult.clientError "timeout") j = AttemptResult.clientError s)
    ∧ ((fetch_page (fun _ : Nat => AttemptResult.clientError "timeout") 3 0).result = Except.ok none
      ∧ (fetch_page (fun _ : Nat => AttemptResult.clientError "timeout") 3 0).attempts.length = 3 + 1
      ∧ (fetch_page (fun _ : Nat => AttemptResult.ok "<html></html>") 3 0).attempts.length ≤ 3 + 1) :=
  ⟨fun _ => ⟨"timeout", rfl⟩,
    retriable_exhaustion _ _ 3 (fun _ => ⟨"timeout", rfl⟩)⟩

/-- Claim C3: an attempt that raises an Exception other than ClientError
makes fetch_page fail at once with the value None: exactly that one
attempt, no retry, and no backoff sleep. -/
theorem unexpected_error_no_retry (env : Nat → AttemptResult) (m k : Nat) (s : String)
    (h : env k = AttemptResult.unexpectedError s) :
    (fetch_page env m k).result = Except.ok none
    ∧ (fetch_page env m k).attempts = [k]
    ∧ (fetch_page env m k).attempts.length = 1
    ∧ (fetch_page env m k).sleeps = [] := by
  rw [fetch_page_unexpected env m k s h]
  exact ⟨rfl, rfl, rfl, rfl⟩

/-- Witness for C3: a malformed-URL style error on the first attempt. -/
theorem unexpected_error_no_retry_witness :
    ((fun _ : Nat => AttemptResult.unexpectedError "invalid URL") 0
        = AttemptResult.unexpectedError "invalid URL")
    ∧ ((fetch_page (fun _ : Nat => AttemptResult.unexpectedError "invalid URL") 3 0).result
        = Except.ok none
      ∧ (fetch_page (fun _ : Nat => AttemptResult.unexpectedError "invalid URL") 3 0).attempts = [0]
      ∧ (fetch_page (fun _ : Nat => AttemptResult.unexpectedError "invalid URL") 3 0).attempts.length = 1
      ∧ (fetch_page (fun _ : Nat => AttemptResult.unexpectedError "invalid URL") 3 0).sleeps = []) :=
  ⟨rfl, unexpected_error_no_retry _ 3 0 "invalid URL" rfl⟩

/-- Claim C4: when a retry is scheduled after attempt k (a ClientError
with k < max_retries), the delay slept before attempt k + 1 equals
1 * 2 ^ k (base one time unit), and the sequence of delays of one target
is monotonically non-decreasing. -/
theorem backoff_exponential (env : Nat → AttemptResult) (m k : Nat) (s : String)
    (h1 : env k = AttemptResult.clientError s) (h2 : k < m) :
    (fetch_page env m k).sleeps.head? = some (1 * 2 ^ k)
    ∧ List.Chain' (fun a b => a ≤ b) (fetch_page env m 0).sleeps := by
  constructor
  · rw [fetch_page_retry env m k s h1 h2]
    simp
  · exact fetch_page_sleeps_chain env m (m - 0) 0 rfl

/-- Witness for C4: a retry scheduled after the second attempt. -/
theorem backoff_exponential_witness :
    ((fun _ : Nat => AttemptResult.clientError "HTTP 503") 1 = AttemptResult.clientError "HTTP 503")
    ∧ (1 < 3)
    ∧ ((fetch_page (fun _ : Nat => AttemptResult.clientError "HTTP 503") 3 1).sleeps.head?
        = some (1 * 2 ^ 1)
      ∧ List.Chain' (fun a b => a ≤ b)
          (fetch_page (fun _ : Nat => AttemptResult.clientError "HTTP 503") 3 0).sleeps) :=
  ⟨rfl, by decide, backoff_exponential _ 3 1 "HTTP 503" rfl (by decide)⟩

/-- Claim C5: the identity used on attempt k is the pool entry at index
k mod poolSize, a pure function of k over the fixed non-empty ordered
pool; the sequence repeats with period poolSize and enumerates the whole
pool over one period. -/
theorem identity_rotation (k : Nat) :
    USER_AGENTS.get? (k % USER_AGENTS.length) = some (identityFor k)
    ∧ identityFor (k + USER_AGENTS.length) = identityFor k
    ∧ (List.range USER_AGENTS.length).map identityFor = USER_AGENTS := by
  refine ⟨?_, ?_, ?_⟩
  · exact List.get?_eq_get _
  · simp [identityFor, Nat.add_mod_right]
  · rfl

/-- JSON values, the data json.dumps serializes in the sources. -/
inductive Json where
  | null
  | str (s : String)
  | num (n : Int)
  | arr (elems : List Json)
  | obj (fields : List (String × Json))

/-- Escaping of one character by the default json.dumps string encoder,
restricted to the two characters needing escapes in these payloads. -/
def escapeChar (c : Char) : String :=
  if c = '"' then "\\\"" else if c = '\\' then "\\\\" else String.singleton c

/-- Serialization of one JSON string literal. -/
def dumpString (s : String) : String :=
  "\"" ++ String.join (s.data.map escapeChar) ++ "\""

mutual

/-- json.dumps with the default separators, as called at part_000 line
282; example.py line 65 additionally passes indent=2, which only changes
whitespace. -/
def dumps : Json → String
  | .null => "null"
  | .str s => dumpString s
  | .num n => toString n
  | .arr xs => "[" ++ dumpsList xs ++ "]"
  | .obj fs => "\x7b" ++ dumpsFields fs ++ "\x7d"

/-- Comma-separated serialization of the elements of a JSON array. -/
def dumpsList : List Json → String
  | [] => ""
  | [x] => dumps x
  | x :: y :: rest => dumps x ++ ", " ++ dumpsList (y :: rest)

/-- Comma-separated serialization of the members of a JSON object. -/
def dumpsFields : List (String × Json) → String
  | [] => ""
  | [(k, v)] => dumpString k ++ ": " ++ dumps v
  | (k, v) :: p :: rest => dumpString k ++ ": " ++ dumps v ++ ", " ++ dumpsFields (p :: rest)

end

/-- One HTTP response as the handler writes it: the status passed to
send_response, the Content-type header, and the bytes written to wfile. -/
structure HttpResponse where
  status : Nat
  contentType : String
  body : String

/-- DataHandler.do_GET from part_000 lines 277-284 and example.py lines
60-67: a query for path "/" receives a 200 application/json response
whose body is the dump of the object with the single key scraped_data
holding the whole aggregate; any other path is delegated to the inherited
SimpleHTTPRequestHandler file handler, modelled as none. -/
def do_GET (scraped_data : List Json) (path : String) : Option HttpResponse :=
  if path = "/" then
    some ⟨200, "application/json", dumps (Json.obj [("scraped_data", Json.arr scraped_data)])⟩
  else
    none

/-- State of the serving thread: the module-level scraped_data the
handler reads, and the log of responses written so far. -/
structure ServerState where
  scraped_data : List Json
  written : List HttpResponse

/-- One request processed by DataHandler: the response bytes go to the
socket; scraped_data is only read (do_GET never assigns to it). -/
def handle_request (st : ServerState) (path : String) : ServerState :=
  match do_GET st.scraped_data path with
  | some resp => { st with written := st.written ++ [resp] }
  | none => st

/-- run_server from part_000 lines 286-292 and example.py lines 69-78:
bind the published aggregate to the module-level scraped_data, then serve
requests; modelled over an arbitrary finite prefix of the request
stream served by serve_forever. -/
def run_server (data : List Json) (paths : List String) : ServerState :=
  paths.foldl handle_request { scraped_data := data, written := [] }

/-- The serialized payload of the single route, spelled out. -/
theorem dumps_scraped_payload (data : List Json) :
    dumps (Json.obj [("scraped_data", Json.arr data)])
      = "\x7b\"scraped_data\": [" ++ dumpsList data ++ "]\x7d" := by
  rw [dumps, dumpsFields, dumps]
  have hk : dumpString "scraped_data" = "\"scraped_data\"" := rfl
  rw [hk]
  simp only [← String.append_assoc]
  simp
  rw [String.append_assoc]
  simp

/-- Claim C7: every query to the single route "/" is answered with the
full current aggregate serialized as the JSON payload with the one key
scraped_data holding every record, in one response; all other paths are
delegated to the inherited file handler. -/
theorem endpoint_full_aggregate (data : List Json) (path : String) :
    do_GET data "/" = some ⟨200, "application/json",
      "\x7b\"scraped_data\": [" ++ dumpsList data ++ "]\x7d"⟩
    ∧ (path ≠ "/" → do_GET data path = none) := by
  constructor
  · rw [do_GET, if_pos rfl, dumps_scraped_payload]
  · intro hne
    rw [do_GET, if_neg hne]

/-- Witness for C7 at an empty aggregate and the path "/other". -/
theorem endpoint_full_aggregate_witness :
    do_GET [] "/" = some ⟨200, "application/json",
      "\x7b\"scraped_data\": [" ++ dumpsList [] ++ "]\x7d"⟩
    ∧ (("/other" : String) ≠ "/" → do_GET [] "/other" = none) :=
  endpoint_full_aggregate [] "/other"

/-- Claim C8: the result sink never mutates the aggregate it serves:
after any sequence of read queries, the aggregate held by the server is
exactly the one handed over when the server started. -/
theorem sink_read_only (data : List Json) (paths : List String) :
    (run_server data paths).scraped_data = data := by
  suffices h : ∀ st : ServerState, (paths.foldl handle_request st).scraped_data = st.scraped_data by
    exact h _
  induction paths with
  | nil => intro st; rfl
  | cons p ps ih =>
    intro st
    rw [List.foldl_cons, ih]
    show (handle_request st p).scraped_data = st.scraped_data
    unfold handle_request
    cases do_GET st.scraped_data p <;> rfl

/-- asyncio.gather over the outcomes of the spawned tasks: the awaited
value is the list of task results in task order; an exception escaping
any task propagates out of the await instead of producing a list. -/
def gather {ε α : Type} : List (Except ε α) → Except ε (List α)
  | [] => Except.ok []
  | t :: ts =>
    match t with
    | Except.error e => Except.error e
    | Except.ok a =>
      match gather ts with
      | Except.error e => Except.error e
      | Except.ok l => Except.ok (a :: l)

/-- When every task completed with a value, gather returns the list of
those values, index for index in task order. -/
theorem gather_ok {ε α : Type} :
    ∀ ts : List (Except ε α), (∀ t ∈ ts, ∃ a, t = Except.ok a) →
      ∃ l, gather ts = Except.ok l ∧ l.length = ts.length
        ∧ ∀ i : Nat, ts.get? i = (l.get? i).map Except.ok := by
  intro ts
  induction ts with
  | nil => exact fun _ => ⟨[], rfl, rfl, fun i => by cases i <;> rfl⟩
  | cons t ts ih =>
    intro h
    obtain ⟨a, rfl⟩ := h t (List.mem_cons_self t ts)
    obtain ⟨l, hl, hlen, hidx⟩ := ih fun x hx => h x (List.mem_cons_of_mem _ hx)
    refine ⟨a :: l, ?_, ?_, ?_⟩
    · simp only [gather, hl]
    · simp [hlen]
    · intro i
      cases i with
      | zero => rfl
      | succ n => simpa using hidx n

/-- main from part_000 lines 184-194 and 264-274 (samples 2 and 3): one
fetch_page task per URL with the module constant MAX_RETRIES, awaited by
asyncio.gather, whose result list is returned directly. -/
def main_gather (fenv : String → Nat → AttemptResult) (urls : List String) :
    Except String (List (Option String)) :=
  gather (urls.map fun url => (fetch_page (fenv url) MAX_RETRIES 0).result)

/-- The dict returned by fetch_with_browser: either with url and title
keys, or with url and error keys after the retries are spent. -/
inductive BrowserResult where
  | page (url title : String)
  | failed (url error : String)
deriving DecidableEq

/-- fetch_with_browser from example.py lines 16-45: one Playwright page
load plus title extraction per attempt; every exception deriving
Exception is caught and, while retry_count < max_retries, retried after
a sleep of 2 ^ retry_count, after which the error dict of the last
exception is returned; an exception deriving only BaseException
propagates. -/
def fetch_with_browser (env : Nat → AttemptResult) (url : String)
    (retry_count : Nat) (max_retries : Nat) : Except String BrowserResult :=
  match env retry_count with
  | .ok title => .ok (.page url title)
  | .clientError e =>
    if h : retry_count < max_retries then
      fetch_with_browser env url (retry_count + 1) max_retries
    else .ok (.failed url e)
  | .unexpectedError e =>
    if h : retry_count < max_retries then
      fetch_with_browser env url (retry_count + 1) max_retries
    else .ok (.failed url e)
  | .baseException e => .error e
termination_by max_retries - retry_count
decreasing_by all_goals omega

/-- When no attempt raises a BaseException-only class,
fetch_with_browser returns one of the two dicts. -/
theorem fetch_with_browser_ok (env : Nat → AttemptResult) (url : String) (mr : Nat)
    (h : ∀ j s, env j ≠ AttemptResult.baseException s) :
    ∀ (fuel k : Nat), mr - k = fuel →
      ∃ r, fetch_with_browser env url k mr = Except.ok r := by
  intro fuel
  induction fuel with
  | zero =>
    intro k hf
    have hge : ¬ k < mr := by omega
    match he : env k with
    | .ok title => exact ⟨.page url title, by rw [fetch_with_browser, he]⟩
    | .clientError e => exact ⟨.failed url e, by rw [fetch_with_browser, he]; simp [hge]⟩
    | .unexpectedError e => exact ⟨.failed url e, by rw [fetch_with_browser, he]; simp [hge]⟩
    | .baseException e => exact absurd he (h k e)
  | succ n ih =>
    intro k hf
    have hlt : k < mr := by omega
    obtain ⟨r, hr⟩ := ih (k + 1) (by omega)
    match he : env k with
    | .ok title => exact ⟨.page url title, by rw [fetch_with_browser, he]⟩
    | .clientError e => exact ⟨r, by rw [fetch_with_browser, he]; simp [hlt, hr]⟩
    | .unexpectedError e => exact ⟨r, by rw [fetch_with_browser, he]; simp [hlt, hr]⟩
    | .baseException e => exact absurd he (h k e)

/-- main from example.py lines 47-54: one fetch_with_browser task per
URL awaited by asyncio.gather and returned directly. -/
def main_browser (benv : String → Nat → AttemptResult) (max_retries : Nat)
    (urls : List String) : Except String (List BrowserResult) :=
  gather (urls.map fun url => fetch_with_browser (benv url) url 0 max_retries)

/-- The record built by extract_data: the two extracted fields and the
source URL carried back for reference. -/
structure Record where
  name : String
  address : String
  url : String
deriving DecidableEq

/-- Outcome of BeautifulSoup parsing and node lookup on one page body:
the optional text of the h1.DUwDvf and div.LrzXr nodes, or an exception
raised during parsing that the except clause of extract_data catches. -/
inductive ExtractOutcome where
  | fields (nameText addressText : Option String)
  | raises (msg : String)

/-- extract_data from part_000 lines 62-93: build the dict from the
found nodes, substituting the string N/A for a missing node and carrying
the source URL; on any Exception return None. -/
def extract_data (xenv : String → ExtractOutcome) (html : String) (url : String) :
    Option Record :=
  match xenv html with
  | .fields n a => some { name := n.getD "N/A", address := a.getD "N/A", url := url }
  | .raises _ => none

/-- process_url from part_000 lines 95-108: fetch the page; when the body
is truthy (neither None nor the empty string, by Python truthiness),
extract, and when a dict came back append it to the shared results list;
otherwise leave the list unchanged. -/
def process_url (fenv : Nat → AttemptResult) (xenv : String → ExtractOutcome)
    (url : String) (results : List Record) : Except String (List Record) :=
  match (fetch_page fenv MAX_RETRIES 0).result with
  | Except.error e => Except.error e
  | Except.ok none => Except.ok results
  | Except.ok (some html) =>
    if html = "" then Except.ok results
    else
      match extract_data xenv html url with
      | some data => Except.ok (results ++ [data])
      | none => Except.ok results

/-- The spawned process_url tasks of the sample-1 main, awaited by
asyncio.gather; modelled by running the tasks in task order, one legal
schedule — each append to the shared results list is atomic, and tasks
touch the list independently of one another. -/
def run_tasks (fenv : String → Nat → AttemptResult) (xenv : String → ExtractOutcome) :
    List String → List Record → Except String (List Record)
  | [], results => Except.ok results
  | url :: rest, results =>
    match process_url (fenv url) xenv url results with
    | Except.error e => Except.error e
    | Except.ok results2 => run_tasks fenv xenv rest results2

/-- main from part_000 lines 110-121 (sample 1): start with the empty
shared results list, run one process_url task per URL under gather, and
return the shared list. -/
def main_s1 (fenv : String → Nat → AttemptResult) (xenv : String → ExtractOutcome)
    (urls : List String) : Except String (List Record) :=
  run_tasks fenv xenv urls []

/-- The aggregate entry one URL contributes in the sample-1 pipeline:
its record when fetch succeeded with a truthy body and extraction
succeeded, and nothing otherwise. -/
def recordOf (fenv : String → Nat → AttemptResult) (xenv : String → ExtractOutcome)
    (url : String) : Option Record :=
  match (fetch_page (fenv url) MAX_RETRIES 0).result with
  | Except.ok (some html) => if html = "" then none else extract_data xenv html url
  | _ => none

/-- The result of fetch_page when every attempt fails retriable is the
exhausted None value. -/
theorem fetch_page_allfail_result (env : Nat → AttemptResult) (m : Nat)
    (h : ∀ j, ∃ s, env j = AttemptResult.clientError s) :
    (fetch_page env m 0).result = Except.ok none := by
  rw [fetch_page_allfail env m h (m - 0) 0 rfl (Nat.zero_le m)]

/-- One process_url task appends exactly the contribution recordOf
computes for its URL. -/
theorem process_url_recordOf (fenv : String → Nat → AttemptResult)
    (xenv : String → ExtractOutcome) (u : String) (acc : List Record) (o : Option String)
    (ho : (fetch_page (fenv u) MAX_RETRIES 0).result = Except.ok o) :
    process_url (fenv u) xenv u acc = Except.ok (acc ++ (recordOf fenv xenv u).toList) := by
  unfold process_url recordOf
  rw [ho]
  cases o with
  | none => simp
  | some html =>
    by_cases hh : html = ""
    · simp [hh]
    · simp only [hh, if_neg, ite_false]
      cases extract_data xenv html u <;> simp

/-- Under a BaseException-free environment the sample-1 tasks return the
accumulated list extended by exactly the per-URL contributions, in task
order. -/
theorem run_tasks_ok (fenv : String → Nat → AttemptResult) (xenv : String → ExtractOutcome)
    (h : ∀ u j s, fenv u j ≠ AttemptResult.baseException s) :
    ∀ (urls : List String) (acc : List Record),
      run_tasks fenv xenv urls acc
        = Except.ok (acc ++ urls.filterMap (recordOf fenv xenv)) := by
  intro urls
  induction urls with
  | nil => intro acc; simp [run_tasks]
  | cons u rest ih =>
    intro acc
    obtain ⟨o, ho⟩ := fetch_page_result_ok (fenv u) MAX_RETRIES (h u) (MAX_RETRIES - 0) 0 rfl
    rw [run_tasks, process_url_recordOf fenv xenv u acc o ho]
    show run_tasks fenv xenv rest (acc ++ (recordOf fenv xenv u).toList)
        = Except.ok (acc ++ (u :: rest).filterMap (recordOf fenv xenv))
    rw [ih]
    cases hr : recordOf fenv xenv u <;>
      simp [List.filterMap_cons, hr, Option.toList]

theorem ok_ne_base (a b : String) :
    AttemptResult.ok a ≠ AttemptResult.baseException b := by simp

theorem clientError_ne_base (a b : String) :
    AttemptResult.clientError a ≠ AttemptResult.baseException b := by simp

theorem unexpectedError_ne_base (a b : String) :
    AttemptResult.unexpectedError a ≠ AttemptResult.baseException b := by simp

/-- Counterexample to claim C9 as stated: an attempt raising a class
deriving only BaseException — KeyboardInterrupt, SystemExit, or the
asyncio.CancelledError of a cancelled task — is caught by neither except
clause, and fetch_page propagates it to the caller instead of returning
a body or None. -/
theorem fetch_page_propagates_base :
    (fetch_page (fun _ : Nat => AttemptResult.baseException "KeyboardInterrupt")
        MAX_RETRIES 0).result = Except.error "KeyboardInterrupt" := by
  rw [fetch_page_base (fun _ : Nat => AttemptResult.baseException "KeyboardInterrupt")
    MAX_RETRIES 0 "KeyboardInterrupt" rfl]

/-- Claim C9 amended: fetch_page is total at its public interface for
every exception class deriving Exception — it catches ClientError and
every other Exception and returns either the page body or None; only
classes deriving solely from BaseException propagate. -/
theorem fetch_page_total_for_exceptions (env : Nat → AttemptResult) (m k : Nat)
    (h : ∀ j s, env j ≠ AttemptResult.baseException s) :
    ∃ o : Option String, (fetch_page env m k).result = Except.ok o :=
  fetch_page_result_ok env m h (m - k) k rfl

/-- Witness for the amended C9 at an environment raising an ordinary
Exception on every attempt. -/
theorem fetch_page_total_for_exceptions_witness :
    (∀ j s, (fun _ : Nat => AttemptResult.unexpectedError "oops") j
        ≠ AttemptResult.baseException s)
    ∧ ∃ o : Option String,
        (fetch_page (fun _ : Nat => AttemptResult.unexpectedError "oops") 3 0).result
          = Except.ok o :=
  ⟨fun _ s => unexpectedError_ne_base "oops" s,
    fetch_page_total_for_exceptions _ 3 0 (fun _ s => unexpectedError_ne_base "oops" s)⟩

/-- Claim C10: the gather-based orchestrators — the sample-2 and
sample-3 mains over fetch_page and the example.py main over
fetch_with_browser — return, when no task propagates a
BaseException-only class, a list with one entry per input URL whose
entry at index i is the outcome of fetching the URL at index i: output
order equals input order. -/
theorem gather_output_order (fenv benv : String → Nat → AttemptResult) (mr : Nat)
    (urls : List String)
    (h1 : ∀ u j s, fenv u j ≠ AttemptResult.baseException s)
    (h2 : ∀ u j s, benv u j ≠ AttemptResult.baseException s) :
    (∃ l, main_gather fenv urls = Except.ok l ∧ l.length = urls.length
      ∧ ∀ i : Nat, (urls.get? i).map (fun u => (fetch_page (fenv u) MAX_RETRIES 0).result)
          = (l.get? i).map Except.ok)
    ∧ (∃ lb, main_browser benv mr urls = Except.ok lb ∧ lb.length = urls.length
      ∧ ∀ i : Nat, (urls.get? i).map (fun u => fetch_with_browser (benv u) u 0 mr)
          = (lb.get? i).map Except.ok) := by
  constructor
  · obtain ⟨l, hg, hlen, hidx⟩ :=
      gather_ok (urls.map fun u => (fetch_page (fenv u) MAX_RETRIES 0).result)
        (by
          intro t ht
          obtain ⟨u, _, rfl⟩ := List.mem_map.mp ht
          exact fetch_page_result_ok (fenv u) MAX_RETRIES (h1 u) (MAX_RETRIES - 0) 0 rfl)
    refine ⟨l, hg, by simpa using hlen, ?_⟩
    intro i
    have := hidx i
    rwa [List.get?_map] at this
  · obtain ⟨lb, hg, hlen, hidx⟩ :=
      gather_ok (urls.map fun u => fetch_with_browser (benv u) u 0 mr)
        (by
          intro t ht
          obtain ⟨u, _, rfl⟩ := List.mem_map.mp ht
          exact fetch_with_browser_ok (benv u) u mr (h2 u) (mr - 0) 0 rfl)
    refine ⟨lb, hg, by simpa using hlen, ?_⟩
    intro i
    have := hidx i
    rwa [List.get?_map] at this

/-- Witness for C10: two URLs, one environment failing every attempt and
one succeeding at once. -/
theorem gather_output_order_witness :
    (∀ u j s, (fun (_ : String) (_ : Nat) => AttemptResult.clientError "err") u j
        ≠ AttemptResult.baseException s)
    ∧ (∀ u j s, (fun _ : String => fun _ : Nat => AttemptResult.ok "Title") u j
        ≠ AttemptResult.baseException s)
    ∧ ((∃ l, main_gather (fun _ _ => AttemptResult.clientError "err")
          ["https://a.example", "https://b.example"] = Except.ok l
        ∧ l.length = (["https://a.example", "https://b.example"] : List String).length
        ∧ ∀ i : Nat, ((["https://a.example", "https://b.example"] : List String).get? i).map
              (fun u => (fetch_page ((fun _ _ => AttemptResult.clientError "err") u)
                MAX_RETRIES 0).result)
            = (l.get? i).map Except.ok)
      ∧ (∃ lb, main_browser (fun _ => fun _ => AttemptResult.ok "Title") 3
            ["https://a.example", "https://b.example"] = Except.ok lb
        ∧ lb.length = (["https://a.example", "https://b.example"] : List String).length
        ∧ ∀ i : Nat, ((["https://a.example", "https://b.example"] : List String).get? i).map
              (fun u => fetch_with_browser ((fun _ : String => fun _ : Nat =>
                AttemptResult.ok "Title") u) u 0 3)
            = (lb.get? i).map Except.ok)) :=
  ⟨fun _ _ s => clientError_ne_base "err" s,
    fun _ _ s => ok_ne_base "Title" s,
    gather_output_order _ _ 3 ["https://a.example", "https://b.example"]
      (fun _ _ s => clientError_ne_base "err" s)
      (fun _ _ s => ok_ne_base "Title" s)⟩

/-- Counterexample to claim C1 as stated: one input URL whose every
fetch attempt fails retriable makes the sample-1 run return an empty
aggregate — zero entries for one target, not one terminal outcome per
input URL. -/
theorem run_drops_failed_target :
    main_s1 (fun _ _ => AttemptResult.clientError "HTTP 503")
        (fun _ => ExtractOutcome.fields none none) ["https://a.example"]
      = Except.ok []
    ∧ ([] : List Record).length ≠ (["https://a.example"] : List String).length := by
  constructor
  · have h : ∀ u j s, (fun (_ : String) (_ : Nat) => AttemptResult.clientError "HTTP 503")
        u j ≠ AttemptResult.baseException s := fun _ _ s => clientError_ne_base "HTTP 503" s
    have hrec : recordOf (fun _ _ => AttemptResult.clientError "HTTP 503")
        (fun _ => ExtractOutcome.fields none none) "https://a.example" = none := by
      unfold recordOf
      rw [fetch_page_allfail_result _ MAX_RETRIES (fun j => ⟨"HTTP 503", rfl⟩)]
    show run_tasks _ _ ["https://a.example"] [] = Except.ok []
    rw [run_tasks_ok _ _ h]
    simp [List.filterMap_cons, hrec]
  · simp

/-- Claim C1 amended: a gather-based run returns an aggregate with
exactly N entries for N input URLs; the sample-1 run, whose process_url
appends to the shared list only on success, returns exactly one entry
per URL whose fetch produced a truthy body and whose extraction produced
a dict — at most N entries, with failed targets contributing none. -/
theorem run_aggregate_count (fenv : String → Nat → AttemptResult)
    (xenv : String → ExtractOutcome) (urls : List String)
    (h : ∀ u j s, fenv u j ≠ AttemptResult.baseException s) :
    main_s1 fenv xenv urls = Except.ok (urls.filterMap (recordOf fenv xenv))
    ∧ (urls.filterMap (recordOf fenv xenv)).length ≤ urls.length
    ∧ ∃ l, main_gather fenv urls = Except.ok l ∧ l.length = urls.length := by
  refine ⟨?_, List.length_filterMap_le _ _, ?_⟩
  · show run_tasks fenv xenv urls [] = _
    rw [run_tasks_ok fenv xenv h]
    simp
  · obtain ⟨l, hg, hlen, _⟩ :=
      gather_ok (urls.map fun u => (fetch_page (fenv u) MAX_RETRIES 0).result)
        (by
          intro t ht
          obtain ⟨u, _, rfl⟩ := List.mem_map.mp ht
          exact fetch_page_result_ok (fenv u) MAX_RETRIES (h u) (MAX_RETRIES - 0) 0 rfl)
    exact ⟨l, hg, by simpa using hlen⟩

/-- Witness for the amended C1 at an all-failing environment over one
URL. -/
theorem run_aggregate_count_witness :
    (∀ u j s, (fun (_ : String) (_ : Nat) => AttemptResult.clientError "timeout") u j
        ≠ AttemptResult.baseException s)
    ∧ (main_s1 (fun _ _ => AttemptResult.clientError "timeout")
          (fun _ => ExtractOutcome.raises "no soup") ["https://a.example"]
        = Except.ok ((["https://a.example"] : List String).filterMap
            (recordOf (fun _ _ => AttemptResult.clientError "timeout")
              (fun _ => ExtractOutcome.raises "no soup")))
      ∧ ((["https://a.example"] : List String).filterMap
            (recordOf (fun _ _ => AttemptResult.clientError "timeout")
              (fun _ => ExtractOutcome.raises "no soup"))).length
          ≤ (["https://a.example"] : List String).length
      ∧ ∃ l, main_gather (fun _ _ => AttemptResult.clientError "timeout")
            ["https://a.example"] = Except.ok l
          ∧ l.length = (["https://a.example"] : List String).length) :=
  ⟨fun _ _ s => clientError_ne_base "timeout" s,
    run_aggregate_count _ _ ["https://a.example"]
      (fun _ _ s => clientError_ne_base "timeout" s)⟩

/-- Environment for the C6 counterexample: one target raising a
non-retriable error, the other serving a page. -/
def fenvMixed : String → Nat → AttemptResult := fun u _ =>
  if u = "https://down.example" then AttemptResult.unexpectedError "boom"
  else AttemptResult.ok "<html>page</html>"

/-- Counterexample to claim C6 as stated: with two targets of which one
fails unrecoverably, the sample-1 run returns normally but the failed
target left no value in the aggregate — its terminal state is only
logged, not returned. -/
theorem failed_target_absent :
    main_s1 fenvMixed (fun _ => ExtractOutcome.fields none none)
        ["https://down.example", "https://up.example"]
      = Except.ok [{ name := "N/A", address := "N/A", url := "https://up.example" }] := by
  have h : ∀ u j s, fenvMixed u j ≠ AttemptResult.baseException s := by
    intro u j s
    unfold fenvMixed
    split
    · exact unexpectedError_ne_base "boom" s
    · exact ok_ne_base "<html>page</html>" s
  have h1 : fenvMixed "https://down.example" 0 = AttemptResult.unexpectedError "boom" := by
    unfold fenvMixed
    rw [if_pos rfl]
  have h2 : fenvMixed "https://up.example" 0 = AttemptResult.ok "<html>page</html>" := by
    unfold fenvMixed
    rw [if_neg (by decide)]
  have hrec1 : recordOf fenvMixed (fun _ => ExtractOutcome.fields none none)
      "https://down.example" = none := by
    unfold recordOf
    rw [fetch_page_unexpected _ MAX_RETRIES 0 "boom" h1]
  have hrec2 : recordOf fenvMixed (fun _ => ExtractOutcome.fields none none)
      "https://up.example"
      = some { name := "N/A", address := "N/A", url := "https://up.example" } := by
    unfold recordOf
    rw [fetch_page_ok _ MAX_RETRIES 0 "<html>page</html>" h2]
    rfl
  show run_tasks _ _ _ [] = _
  rw [run_tasks_ok _ _ h]
  simp [List.filterMap_cons, hrec1, hrec2]

/-- Claim C6 amended: when no attempt raises a BaseException-only class,
the sample-1 run always returns normally — no per-target failure aborts
the batch or escapes as an exception — but a failed target is only
logged: every value in the returned aggregate comes from a target whose
fetch and extraction succeeded. -/
theorem run_returns_normally (fenv : String → Nat → AttemptResult)
    (xenv : String → ExtractOutcome) (urls : List String)
    (h : ∀ u j s, fenv u j ≠ AttemptResult.baseException s) :
    ∃ res, main_s1 fenv xenv urls = Except.ok res
      ∧ ∀ r ∈ res, ∃ u, u ∈ urls ∧ recordOf fenv xenv u = some r := by
  refine ⟨urls.filterMap (recordOf fenv xenv), ?_, ?_⟩
  · show run_tasks fenv xenv urls [] = _
    rw [run_tasks_ok fenv xenv h]
    simp
  · intro r hr
    obtain ⟨u, hu, hru⟩ := List.mem_filterMap.mp hr
    exact ⟨u, hu, hru⟩

/-- Witness for the amended C6: the mixed environment with one
unrecoverable target and one served page. -/
theorem run_returns_normally_witness :
    (∀ u j s, fenvMixed u j ≠ AttemptResult.baseException s)
    ∧ ∃ res, main_s1 fenvMixed (fun _ => ExtractOutcome.fields none none)
          ["https://down.example", "https://up.example"] = Except.ok res
        ∧ ∀ r ∈ res, ∃ u, u ∈ (["https://down.example", "https://up.example"] : List String)
            ∧ recordOf fenvMixed (fun _ => ExtractOutcome.fields none none) u = some r := by
  have h : ∀ u j s, fenvMixed u j ≠ AttemptResult.baseException s := by
    intro u j s
    unfold fenvMixed
    split
    · exact unexpectedError_ne_base "boom" s
    · exact ok_ne_base "<html>page</html>" s
  exact ⟨h, run_returns_normally fenvMixed _ _ h⟩

end Scrape
